import Mathlib

/-!
Shallow embedding of the valve test engine of
src/Components/ValveCtrl/valve_ctrl_core.c (types from valve_ctrl_def.h).

The engine is a tick-driven state machine over a single mutable context.
Hardware effects (protocol sends, GPIO outputs, soft-delay requests) do not
touch the context, so they are dropped; hardware observations (the two
voltage readings and the soft-delay-done poll) are supplied as per-tick
inputs.  uint32 arithmetic is modelled as Nat modulo 2^32 and the uint8
retry counter modulo 2^8.
-/

set_option maxRecDepth 4000

/-- VT_StepResult from valve_ctrl_def.h. -/
inductive VT_StepResult where
  | VT_STEP_IDLE
  | VT_STEP_BUSY
  | VT_STEP_SUCCESS
  | VT_STEP_TIMEOUT
  | VT_STEP_FAIL
  | VT_STEP_MISMATCH
deriving DecidableEq, Repr

/-- VT_TestResult from valve_ctrl_def.h. -/
inductive VT_TestResult where
  | VT_IDLE
  | VT_RUNNING
  | VT_SUCCESS
  | VT_TIMEOUT
  | VT_FAIL
deriving DecidableEq, Repr

/-- VT_FailReason from valve_ctrl_def.h. -/
inductive VT_FailReason where
  | VT_FAIL_NONE
  | VT_FAIL_CONFIG_TIMEOUT
  | VT_FAIL_CONFIG_RETRY
  | VT_FAIL_QUERY_TIMEOUT
  | VT_FAIL_INITIAL_POS_OPEN
  | VT_FAIL_INITIAL_POS_CLOSE
  | VT_FAIL_INITIAL_VOLTAGE_A
  | VT_FAIL_INITIAL_VOLTAGE_B
  | VT_FAIL_INITIAL_RETRY
  | VT_FAIL_OPEN_CMD_TIMEOUT
  | VT_FAIL_OPEN_DETECT_TIMEOUT
  | VT_FAIL_OPEN_STATE_CHECK
  | VT_FAIL_CLOSE_CMD_TIMEOUT
  | VT_FAIL_CLOSE_DETECT_TIMEOUT
  | VT_FAIL_CLOSE_STATE_CHECK
  | VT_FAIL_TOTAL_TIMEOUT
deriving DecidableEq, Repr

/-- VT_TestStep from valve_ctrl_def.h (enum values 0..15). -/
inductive VT_TestStep where
  | VT_STEP_INIT
  | VT_STEP_CONFIG
  | VT_STEP_QUERY_INITIAL
  | VT_STEP_CHECK_INITIAL
  | VT_STEP_SEND_OPEN
  | VT_STEP_DETECT_OPENING
  | VT_STEP_OUTPUT_OPEN_SIGNAL
  | VT_STEP_QUERY_OPEN_STATE
  | VT_STEP_CHECK_OPEN_STATE
  | VT_STEP_SEND_CLOSE
  | VT_STEP_DETECT_CLOSING
  | VT_STEP_OUTPUT_CLOSE_SIGNAL
  | VT_STEP_QUERY_CLOSE_STATE
  | VT_STEP_CHECK_CLOSE_STATE
  | VT_STEP_EVALUATE
  | VT_STEP_DONE
deriving DecidableEq, Repr

/-- The numeric value of a VT_TestStep enumerator in the C enum. -/
def VT_TestStep.toNat : VT_TestStep → Nat
  | .VT_STEP_INIT => 0
  | .VT_STEP_CONFIG => 1
  | .VT_STEP_QUERY_INITIAL => 2
  | .VT_STEP_CHECK_INITIAL => 3
  | .VT_STEP_SEND_OPEN => 4
  | .VT_STEP_DETECT_OPENING => 5
  | .VT_STEP_OUTPUT_OPEN_SIGNAL => 6
  | .VT_STEP_QUERY_OPEN_STATE => 7
  | .VT_STEP_CHECK_OPEN_STATE => 8
  | .VT_STEP_SEND_CLOSE => 9
  | .VT_STEP_DETECT_CLOSING => 10
  | .VT_STEP_OUTPUT_CLOSE_SIGNAL => 11
  | .VT_STEP_QUERY_CLOSE_STATE => 12
  | .VT_STEP_CHECK_CLOSE_STATE => 13
  | .VT_STEP_EVALUATE => 14
  | .VT_STEP_DONE => 15

/-- ValveMeterType from valve_ctrl_def.h. -/
inductive ValveMeterType where
  | VALVE_METER_MECHANICAL
  | VALVE_METER_ULTRASONIC
deriving DecidableEq, Repr

open VT_StepResult VT_TestResult VT_FailReason VT_TestStep ValveMeterType

def VALVE_VOLTAGE_LOW_THRESHOLD : Nat := 100

def VALVE_VOLTAGE_HIGH_THRESHOLD : Nat := 2800

def VALVE_TOTAL_TIMEOUT_MS : Nat := 60000

def VALVE_CONFIG_TIMEOUT_MS : Nat := 10000

def VALVE_INITIAL_CHECK_TIMEOUT_MS : Nat := 5000

def VALVE_OPEN_CMD_TIMEOUT_MS : Nat := 5000

def VALVE_OPEN_DETECT_TIMEOUT_MS : Nat := 5000

def VALVE_CLOSE_CMD_TIMEOUT_MS : Nat := 5000

def VALVE_CLOSE_DETECT_TIMEOUT_MS : Nat := 15000

def VALVE_STATE_CHECK_TIMEOUT_MS : Nat := 5000

def VALVE_MAX_RETRY_COUNT : Nat := 3

/-- Modulus of uint32 arithmetic. -/
def UINT32_MOD : Nat := 4294967296

/-- Modulus of uint8 arithmetic (retry_count is a uint8). -/
def UINT8_MOD : Nat := 256

/-- ValveCtrl_Context_t from valve_ctrl_def.h (the hal pointer is not part of
the modelled state; all HAL functions are assumed present). -/
structure ValveCtrl_Context_t where
  current_step : VT_TestStep
  result : VT_TestResult
  enabled : Bool
  total_time_ms : Nat
  total_timeout_ms : Nat
  step_time_ms : Nat
  step_timeout_ms : Nat
  retry_count : Nat
  retry_max : Nat
  voltage_a : Nat
  voltage_b : Nat
  pos_open : Nat
  pos_close : Nat
  initial_voltage_a : Nat
  initial_voltage_b : Nat
  initial_pos_open : Nat
  initial_pos_close : Nat
  response_received : Nat
  response_code : Nat
  config_param1 : Nat
  config_param2 : Nat
  fail_reason : VT_FailReason
  fail_step : VT_TestStep
  meter_type : ValveMeterType
  expected_config_code : Nat
deriving DecidableEq, Repr

/-- The environment-supplied values consumed by one ValveCtrl_Core_Loop call:
the tick_ms argument, the value returned by the is_soft_delay_done HAL poll,
and the values returned by read_voltage_a / read_voltage_b. -/
structure LoopInput where
  tick_ms : Nat
  delay_done : Bool
  va : Nat
  vb : Nat
deriving DecidableEq, Repr

/-- enter_step from valve_ctrl_core.c. -/
def enter_step (ctx : ValveCtrl_Context_t) (step : VT_TestStep)
    (timeout_ms : Nat) : ValveCtrl_Context_t :=
  { ctx with
    current_step := step
    step_time_ms := 0
    step_timeout_ms := timeout_ms
    response_received := 0
    retry_count := 0 }

/-- step_wait_response from valve_ctrl_core.c: returns the step result and
the (possibly) updated context. -/
def step_wait_response (ctx : ValveCtrl_Context_t) (expected_code : Nat) :
    VT_StepResult × ValveCtrl_Context_t :=
  if ctx.response_received ≠ 1 then
    if ctx.step_time_ms ≥ ctx.step_timeout_ms then
      (VT_STEP_FAIL, ctx)
    else
      (VT_STEP_BUSY, ctx)
  else if ctx.response_code = expected_code then
    (VT_STEP_SUCCESS, { ctx with response_received := 0 })
  else
    (VT_STEP_MISMATCH, { ctx with response_received := 2 })

/-- step_wait_response_with_retry from valve_ctrl_core.c.  has_resend models
resend_func != NULL (true at every call site); the resend itself and the
set_soft_delay calls are hardware effects with no impact on the context, so
the delay arguments are kept only for signature fidelity. -/
def step_wait_response_with_retry (ctx : ValveCtrl_Context_t)
    (expected_code : Nat) (has_resend : Bool)
    (success_delay_ms fail_delay_ms : Nat) :
    VT_StepResult × ValveCtrl_Context_t :=
  let p := step_wait_response ctx expected_code
  let r := p.1
  let ctx := p.2
  let _ := success_delay_ms
  let _ := fail_delay_ms
  if r = VT_STEP_MISMATCH ∧ has_resend = true then
    let rc := (ctx.retry_count + 1) % UINT8_MOD
    if rc > ctx.retry_max then
      (VT_STEP_FAIL, { ctx with retry_count := 0 })
    else
      (VT_STEP_BUSY, { ctx with retry_count := rc })
  else
    (r, ctx)

/-- ValveCtrl_Core_Init from valve_ctrl_core.c: memset to zero followed by
the explicit field assignments (meter_type and expected_config_code remain
at their zeroed values until Start). -/
def ValveCtrl_Core_Init : ValveCtrl_Context_t :=
  { current_step := VT_STEP_INIT
    result := VT_IDLE
    enabled := false
    total_time_ms := 0
    total_timeout_ms := VALVE_TOTAL_TIMEOUT_MS
    step_time_ms := 0
    step_timeout_ms := 0
    retry_count := 0
    retry_max := VALVE_MAX_RETRY_COUNT
    voltage_a := 0
    voltage_b := 0
    pos_open := 0
    pos_close := 0
    initial_voltage_a := 0
    initial_voltage_b := 0
    initial_pos_open := 0
    initial_pos_close := 0
    response_received := 0
    response_code := 0
    config_param1 := 15
    config_param2 := 230
    fail_reason := VT_FAIL_NONE
    fail_step := VT_STEP_INIT
    meter_type := VALVE_METER_MECHANICAL
    expected_config_code := 0 }

/-- ValveCtrl_Core_Start from valve_ctrl_core.c.  mt and ecc are the values
returned by the get_meter_type and get_expected_config_code HAL queries. -/
def ValveCtrl_Core_Start (ctx : ValveCtrl_Context_t) (mt : ValveMeterType)
    (ecc : Nat) : ValveCtrl_Context_t :=
  { ctx with
    enabled := true
    current_step := VT_STEP_INIT
    result := VT_RUNNING
    total_time_ms := 0
    step_time_ms := 0
    retry_count := 0
    response_received := 0
    voltage_a := 0
    voltage_b := 0
    pos_open := 0
    pos_close := 0
    initial_voltage_a := 0
    initial_voltage_b := 0
    initial_pos_open := 0
    initial_pos_close := 0
    fail_reason := VT_FAIL_NONE
    fail_step := VT_STEP_INIT
    meter_type := mt
    expected_config_code := ecc }

/-- ValveCtrl_Core_Stop from valve_ctrl_core.c (the GPIO restore is a
hardware effect). -/
def ValveCtrl_Core_Stop (ctx : ValveCtrl_Context_t) : ValveCtrl_Context_t :=
  { ctx with
    enabled := false
    result := VT_IDLE
    current_step := VT_STEP_INIT }

/-- ValveCtrl_Core_OnResponse from valve_ctrl_core.c. -/
def ValveCtrl_Core_OnResponse (ctx : ValveCtrl_Context_t)
    (response_code : Nat) : ValveCtrl_Context_t :=
  { ctx with
    response_received := 1
    response_code := response_code }

/-- ValveCtrl_Core_Loop from valve_ctrl_core.c: one tick of the state
machine.  Returns the updated context and the VT_TestResult return value. -/
def ValveCtrl_Core_Loop (ctx0 : ValveCtrl_Context_t) (inp : LoopInput) :
    ValveCtrl_Context_t × VT_TestResult :=
  if ctx0.enabled = false then
    (ctx0, VT_IDLE)
  else
    let ctx := { ctx0 with
      total_time_ms := (ctx0.total_time_ms + inp.tick_ms) % UINT32_MOD
      step_time_ms := (ctx0.step_time_ms + inp.tick_ms) % UINT32_MOD }
    if ctx.total_time_ms > ctx.total_timeout_ms then
      ({ ctx with
          result := VT_TIMEOUT
          fail_reason := VT_FAIL_TOTAL_TIMEOUT
          fail_step := ctx.current_step
          enabled := false }, VT_TIMEOUT)
    else if inp.delay_done = false then
      (ctx, VT_RUNNING)
    else
      match ctx.current_step with
      | VT_STEP_INIT =>
          (enter_step ctx VT_STEP_CONFIG VALVE_CONFIG_TIMEOUT_MS, VT_RUNNING)
      | VT_STEP_CONFIG =>
          let p := step_wait_response_with_retry ctx ctx.expected_config_code
            true 100 0
          if p.1 = VT_STEP_SUCCESS then
            (enter_step p.2 VT_STEP_CHECK_INITIAL
              VALVE_INITIAL_CHECK_TIMEOUT_MS, VT_RUNNING)
          else if p.1 = VT_STEP_FAIL then
            ({ p.2 with
                result := VT_FAIL
                fail_reason := VT_FAIL_CONFIG_RETRY
                fail_step := VT_STEP_CONFIG
                enabled := false }, VT_FAIL)
          else
            (p.2, VT_RUNNING)
      | VT_STEP_CHECK_INITIAL =>
          let ctx := { ctx with voltage_a := inp.va, voltage_b := inp.vb }
          if ctx.voltage_a > VALVE_VOLTAGE_LOW_THRESHOLD ∧
              ctx.voltage_b < VALVE_VOLTAGE_LOW_THRESHOLD then
            (enter_step ctx VT_STEP_SEND_OPEN VALVE_OPEN_CMD_TIMEOUT_MS,
              VT_RUNNING)
          else
            let rc := (ctx.retry_count + 1) % UINT8_MOD
            if rc > ctx.retry_max then
              ({ ctx with
                  retry_count := rc
                  result := VT_FAIL
                  fail_step := VT_STEP_CHECK_INITIAL
                  fail_reason :=
                    if ctx.voltage_a ≥ VALVE_VOLTAGE_LOW_THRESHOLD then
                      VT_FAIL_INITIAL_VOLTAGE_A
                    else if ctx.voltage_b ≥ VALVE_VOLTAGE_LOW_THRESHOLD then
                      VT_FAIL_INITIAL_VOLTAGE_B
                    else
                      VT_FAIL_INITIAL_RETRY
                  enabled := false }, VT_FAIL)
            else
              (enter_step { ctx with retry_count := rc } VT_STEP_CONFIG
                VALVE_CONFIG_TIMEOUT_MS, VT_RUNNING)
      | VT_STEP_SEND_OPEN =>
          let p := step_wait_response_with_retry ctx 0xC022 true 0 0
          if p.1 = VT_STEP_SUCCESS then
            (enter_step p.2 VT_STEP_DETECT_OPENING
              VALVE_OPEN_DETECT_TIMEOUT_MS, VT_RUNNING)
          else if p.1 = VT_STEP_FAIL then
            if p.2.retry_count ≥ p.2.retry_max then
              ({ p.2 with
                  result := VT_FAIL
                  fail_reason := VT_FAIL_OPEN_CMD_TIMEOUT
                  fail_step := VT_STEP_SEND_OPEN
                  enabled := false }, VT_FAIL)
            else
              (enter_step p.2 VT_STEP_SEND_OPEN VALVE_OPEN_CMD_TIMEOUT_MS,
                VT_RUNNING)
          else
            (p.2, VT_RUNNING)
      | VT_STEP_DETECT_OPENING =>
          let ctx := { ctx with voltage_a := inp.va, voltage_b := inp.vb }
          if ctx.voltage_a > VALVE_VOLTAGE_HIGH_THRESHOLD ∧
              ctx.voltage_b < VALVE_VOLTAGE_LOW_THRESHOLD then
            (enter_step ctx VT_STEP_OUTPUT_OPEN_SIGNAL 1000, VT_RUNNING)
          else if ctx.step_time_ms ≥ ctx.step_timeout_ms then
            let rc := (ctx.retry_count + 1) % UINT8_MOD
            if rc > ctx.retry_max then
              ({ ctx with
                  retry_count := rc
                  result := VT_TIMEOUT
                  fail_reason := VT_FAIL_OPEN_DETECT_TIMEOUT
                  fail_step := VT_STEP_DETECT_OPENING
                  enabled := false }, VT_TIMEOUT)
            else
              (enter_step { ctx with retry_count := rc } VT_STEP_SEND_OPEN
                VALVE_OPEN_CMD_TIMEOUT_MS, VT_RUNNING)
          else
            (ctx, VT_RUNNING)
      | VT_STEP_OUTPUT_OPEN_SIGNAL =>
          (enter_step ctx VT_STEP_CHECK_OPEN_STATE
            VALVE_STATE_CHECK_TIMEOUT_MS, VT_RUNNING)
      | VT_STEP_CHECK_OPEN_STATE =>
          let ctx := { ctx with voltage_a := inp.va, voltage_b := inp.vb }
          if ctx.voltage_a < VALVE_VOLTAGE_LOW_THRESHOLD ∧
              ctx.voltage_b < VALVE_VOLTAGE_LOW_THRESHOLD then
            (enter_step ctx VT_STEP_SEND_CLOSE VALVE_CLOSE_CMD_TIMEOUT_MS,
              VT_RUNNING)
          else
            let rc := (ctx.retry_count + 1) % UINT8_MOD
            if rc > ctx.retry_max then
              ({ ctx with
                  retry_count := rc
                  result := VT_FAIL
                  fail_reason := VT_FAIL_OPEN_STATE_CHECK
                  fail_step := VT_STEP_CHECK_OPEN_STATE
                  enabled := false }, VT_FAIL)
            else
              (enter_step { ctx with retry_count := rc }
                VT_STEP_OUTPUT_OPEN_SIGNAL 10000, VT_RUNNING)
      | VT_STEP_SEND_CLOSE =>
          let p := step_wait_response_with_retry ctx 0xC022 true 0 0
          if p.1 = VT_STEP_SUCCESS then
            (enter_step p.2 VT_STEP_DETECT_CLOSING
              VALVE_CLOSE_DETECT_TIMEOUT_MS, VT_RUNNING)
          else if p.1 = VT_STEP_FAIL then
            ({ p.2 with
                result := VT_FAIL
                fail_reason := VT_FAIL_CLOSE_CMD_TIMEOUT
                fail_step := VT_STEP_SEND_CLOSE
                enabled := false }, VT_FAIL)
          else
            (p.2, VT_RUNNING)
      | VT_STEP_DETECT_CLOSING =>
          let ctx := { ctx with voltage_a := inp.va, voltage_b := inp.vb }
          if ctx.voltage_a < VALVE_VOLTAGE_LOW_THRESHOLD ∧
              ctx.voltage_b > VALVE_VOLTAGE_HIGH_THRESHOLD then
            (enter_step ctx VT_STEP_OUTPUT_CLOSE_SIGNAL 1000, VT_RUNNING)
          else if ctx.step_time_ms ≥ ctx.step_timeout_ms then
            ({ ctx with
                result := VT_TIMEOUT
                fail_reason := VT_FAIL_CLOSE_DETECT_TIMEOUT
                fail_step := VT_STEP_DETECT_CLOSING
                enabled := false }, VT_TIMEOUT)
          else
            (ctx, VT_RUNNING)
      | VT_STEP_OUTPUT_CLOSE_SIGNAL =>
          (enter_step ctx VT_STEP_CHECK_CLOSE_STATE
            VALVE_STATE_CHECK_TIMEOUT_MS, VT_RUNNING)
      | VT_STEP_CHECK_CLOSE_STATE =>
          let ctx := { ctx with voltage_a := inp.va, voltage_b := inp.vb }
          if ctx.voltage_a < VALVE_VOLTAGE_LOW_THRESHOLD ∧
              ctx.voltage_b < VALVE_VOLTAGE_LOW_THRESHOLD then
            (enter_step ctx VT_STEP_EVALUATE 1000, VT_RUNNING)
          else
            let rc := (ctx.retry_count + 1) % UINT8_MOD
            if rc > ctx.retry_max then
              ({ ctx with
                  retry_count := rc
                  result := VT_FAIL
                  fail_reason := VT_FAIL_CLOSE_STATE_CHECK
                  fail_step := VT_STEP_CHECK_CLOSE_STATE
                  enabled := false }, VT_FAIL)
            else
              (enter_step { ctx with retry_count := rc }
                VT_STEP_OUTPUT_CLOSE_SIGNAL 5000, VT_RUNNING)
      | VT_STEP_EVALUATE =>
          ({ ctx with result := VT_SUCCESS, current_step := VT_STEP_DONE },
            VT_RUNNING)
      | VT_STEP_DONE =>
          ({ ctx with enabled := false }, ctx.result)
      | VT_STEP_QUERY_INITIAL => (ctx, VT_RUNNING)
      | VT_STEP_QUERY_OPEN_STATE => (ctx, VT_RUNNING)
      | VT_STEP_QUERY_CLOSE_STATE => (ctx, VT_RUNNING)

/-- ValveCtrl_Core_GetResult from valve_ctrl_core.c (non-null context). -/
def ValveCtrl_Core_GetResult (ctx : ValveCtrl_Context_t) : VT_TestResult :=
  ctx.result

/-- ValveCtrl_Core_GetFailReason from valve_ctrl_core.c (non-null context). -/
def ValveCtrl_Core_GetFailReason (ctx : ValveCtrl_Context_t) : VT_FailReason :=
  ctx.fail_reason

/-- ValveCtrl_Core_IsRunning from valve_ctrl_core.c (non-null context). -/
def ValveCtrl_Core_IsRunning (ctx : ValveCtrl_Context_t) : Bool :=
  ctx.enabled

/-- One externally observable event driving the engine: either a loop tick
(with its environment inputs) or a ValveCtrl_Core_OnResponse delivery. -/
inductive DriveEvent where
  | tick (inp : LoopInput)
  | resp (code : Nat)
deriving DecidableEq, Repr

/-- Apply one drive event to a context. -/
def driveOne (ctx : ValveCtrl_Context_t) : DriveEvent → ValveCtrl_Context_t
  | DriveEvent.tick inp => (ValveCtrl_Core_Loop ctx inp).1
  | DriveEvent.resp code => ValveCtrl_Core_OnResponse ctx code

/-- Apply a sequence of drive events to a context. -/
def drive (ctx : ValveCtrl_Context_t) (es : List DriveEvent) :
    ValveCtrl_Context_t :=
  es.foldl driveOne ctx

/-- Contexts reachable through the public API, starting from
ValveCtrl_Core_Init. -/
inductive Reachable : ValveCtrl_Context_t → Prop where
  | init : Reachable ValveCtrl_Core_Init
  | start (mt : ValveMeterType) (ecc : Nat) {c : ValveCtrl_Context_t} :
      Reachable c → Reachable (ValveCtrl_Core_Start c mt ecc)
  | stop {c : ValveCtrl_Context_t} :
      Reachable c → Reachable (ValveCtrl_Core_Stop c)
  | loop (inp : LoopInput) {c : ValveCtrl_Context_t} :
      Reachable c → Reachable (ValveCtrl_Core_Loop c inp).1
  | onResponse (code : Nat) {c : ValveCtrl_Context_t} :
      Reachable c → Reachable (ValveCtrl_Core_OnResponse c code)

/-- The safety relation between `result` and `fail_reason` maintained by the
engine: a non-`VT_FAIL_NONE` reason is only ever recorded together with
disabling the session, `VT_SUCCESS` is only reached with a clean reason, and
a `VT_FAIL`/`VT_TIMEOUT` verdict always carries a reason. -/
def ResultReasonInv (c : ValveCtrl_Context_t) : Prop :=
  (c.fail_reason ≠ VT_FAIL_NONE → c.enabled = false) ∧
  (c.result = VT_SUCCESS → c.fail_reason = VT_FAIL_NONE) ∧
  (c.result = VT_FAIL ∨ c.result = VT_TIMEOUT → c.fail_reason ≠ VT_FAIL_NONE)

/-- The four backward (retry) transitions the step switch actually contains. -/
def retry_back_edges : List (VT_TestStep × VT_TestStep) :=
  [(VT_STEP_CHECK_INITIAL, VT_STEP_CONFIG),
   (VT_STEP_DETECT_OPENING, VT_STEP_SEND_OPEN),
   (VT_STEP_CHECK_OPEN_STATE, VT_STEP_OUTPUT_OPEN_SIGNAL),
   (VT_STEP_CHECK_CLOSE_STATE, VT_STEP_OUTPUT_CLOSE_SIGNAL)]

/-- A single-tick step change is admissible when it moves forward by at most
two enum values (the enum reserves unused query placeholders at 2, 7 and 12,
which the engine skips) or is one of the four retry back edges. -/
def step_transition_ok (s s2 : VT_TestStep) : Bool :=
  decide (s2.toNat ≤ s.toNat + 2) &&
  (decide (s.toNat ≤ s2.toNat) || decide ((s, s2) ∈ retry_back_edges))

/-- A freshly started mechanical-meter session (expected config ack 0x2604,
as cached by Start from the HAL). -/
def ctx_started : ValveCtrl_Context_t :=
  ValveCtrl_Core_Start ValveCtrl_Core_Init VALVE_METER_MECHANICAL 0x2604

/-- A tick event with the soft delay expired and the given voltage reads. -/
def tk (t : Nat) (a b : Nat) : DriveEvent := DriveEvent.tick ⟨t, true, a, b⟩

/-- Four consecutive CheckInitial attempts with out-of-range voltages
(3000 mV, 3000 mV); each failed attempt retries back to the Config step and
the configuration acknowledgement is delivered again before the next
attempt. -/
def c1_events : List DriveEvent :=
  [tk 500 0 0, DriveEvent.resp 0x2604, tk 500 0 0,
   tk 500 3000 3000, DriveEvent.resp 0x2604, tk 500 0 0,
   tk 500 3000 3000, DriveEvent.resp 0x2604, tk 500 0 0,
   tk 500 3000 3000, DriveEvent.resp 0x2604, tk 500 0 0,
   tk 500 3000 3000]

/-- Reach the SendOpen step (config acked, initial voltages in range), after
which no response of any kind is ever delivered. -/
def c2_reach : List DriveEvent :=
  [tk 500 0 0, DriveEvent.resp 0x2604, tk 500 0 0, tk 500 3000 0]

/-- SendOpen with no acknowledgement: every 5000 ms the step times out and
is re-entered, until the 60 s whole-test timeout fires. -/
def c2_events : List DriveEvent :=
  c2_reach ++ List.replicate 12 (tk 5000 0 0)

/-- Config step driven to its 10 s step timeout with no response at all
(zero retries attempted). -/
def c3_events : List DriveEvent := [tk 500 0 0, tk 10000 0 0]

/-- Context awaiting the configuration acknowledgement, no retries
attempted. -/
def c3_ctx : ValveCtrl_Context_t := drive ctx_started [tk 500 0 0]

/-- One scenario-B retry cycle: CheckInitial fails on voltages
(3000, 3000), retries to Config, and the configuration acknowledgement is
delivered again. -/
def c4_cycle : List DriveEvent :=
  [tk 2000 3000 3000, DriveEvent.resp 0x2604, tk 2000 0 0]

/-- Scenario B driven to termination: initial voltages pinned at
(3000, 3000) while the config acknowledgement keeps arriving; the session
only ends when the 60 s whole-test timeout fires. -/
def c4_events : List DriveEvent :=
  [tk 500 0 0, DriveEvent.resp 0x2604, tk 500 0 0] ++
  (List.replicate 15 c4_cycle).flatten ++ [tk 2000 3000 3000]

/-- Scenario B stopped after three full retry cycles. -/
def c4_three_retries : List DriveEvent :=
  [tk 500 0 0, DriveEvent.resp 0x2604, tk 500 0 0] ++
  (List.replicate 3 c4_cycle).flatten

/-- A complete happy-path run: config acked, initial voltages good, open
acked, opening detected, open state good, close acked, closing detected,
close state good, evaluated; ends with current_step = Done and
result = Success. -/
def c5_events : List DriveEvent :=
  [tk 500 0 0, DriveEvent.resp 0x2604, tk 500 0 0,
   tk 500 3000 0, DriveEvent.resp 0xC022, tk 500 0 0,
   tk 500 3000 0, tk 500 0 0, tk 500 0 0,
   DriveEvent.resp 0xC022, tk 500 0 0,
   tk 500 0 3000, tk 500 0 0, tk 500 0 0, tk 500 0 0]

/-- Session parked at the Done step (result already Success). -/
def c5_done_ctx : ValveCtrl_Context_t := drive ctx_started c5_events

/-- Events up to the Config wait. -/
def c6_pre : List DriveEvent := [tk 500 0 0, DriveEvent.resp 0x2604]

/-- One more tick: Config acknowledged, advancing Config -> CheckInitial. -/
def c6_mid : List DriveEvent := c6_pre ++ [tk 500 0 0]

/-- One more tick: CheckInitial fails, retrying CheckInitial -> Config. -/
def c6_post : List DriveEvent := c6_mid ++ [tk 500 3000 3000]

/-- Session in DetectClosing (entered from a happy-path prefix): step
timeout 15000 ms. -/
def c7_ctx : ValveCtrl_Context_t := drive ctx_started (c5_events.take 11)

/-- A 15 s tick in DetectClosing during which the voltages never swing to
the closing signature. -/
def c7_inp : LoopInput := ⟨15000, true, 500, 500⟩

/-- A reachable terminal session: one 60001 ms tick after Start trips the
whole-test timeout. -/
def c9_ctx : ValveCtrl_Context_t :=
  (ValveCtrl_Core_Loop ctx_started ⟨60001, true, 0, 0⟩).1

theorem swrr_current_step (c : ValveCtrl_Context_t) (e : Nat) (h : Bool)
    (s f : Nat) :
    (step_wait_response_with_retry c e h s f).2.current_step =
      c.current_step := by
  simp only [step_wait_response_with_retry, step_wait_response]
  repeat' split
  all_goals rfl

theorem swrr_result (c : ValveCtrl_Context_t) (e : Nat) (h : Bool)
    (s f : Nat) :
    (step_wait_response_with_retry c e h s f).2.result = c.result := by
  simp only [step_wait_response_with_retry, step_wait_response]
  repeat' split
  all_goals rfl

theorem swrr_enabled (c : ValveCtrl_Context_t) (e : Nat) (h : Bool)
    (s f : Nat) :
    (step_wait_response_with_retry c e h s f).2.enabled = c.enabled := by
  simp only [step_wait_response_with_retry, step_wait_response]
  repeat' split
  all_goals rfl

theorem swrr_fail_reason (c : ValveCtrl_Context_t) (e : Nat) (h : Bool)
    (s f : Nat) :
    (step_wait_response_with_retry c e h s f).2.fail_reason =
      c.fail_reason := by
  simp only [step_wait_response_with_retry, step_wait_response]
  repeat' split
  all_goals rfl

theorem swrr_total_time_ms (c : ValveCtrl_Context_t) (e : Nat) (h : Bool)
    (s f : Nat) :
    (step_wait_response_with_retry c e h s f).2.total_time_ms =
      c.total_time_ms := by
  simp only [step_wait_response_with_retry, step_wait_response]
  repeat' split
  all_goals rfl

theorem swrr_step_time_ms (c : ValveCtrl_Context_t) (e : Nat) (h : Bool)
    (s f : Nat) :
    (step_wait_response_with_retry c e h s f).2.step_time_ms =
      c.step_time_ms := by
  simp only [step_wait_response_with_retry, step_wait_response]
  repeat' split
  all_goals rfl

theorem loop_disabled (c : ValveCtrl_Context_t) (inp : LoopInput)
    (h : c.enabled = false) :
    ValveCtrl_Core_Loop c inp = (c, VT_IDLE) := by
  unfold ValveCtrl_Core_Loop
  simp [h]

/-- Claim C1 (refuted on the code): every retry transition passes through
enter_step, which zeroes retry_count, so at CheckInitial the fourth
consecutive failed attempt does not exhaust the budget: after four failed
attempts in c1_events (each acknowledged config in between), the session is
still enabled and running with no failure recorded, parked back at the
Config step.  Intermediate conjuncts show attempts 1-3 also each ended back
at Config with the retry counter reset to zero. -/
theorem check_initial_fourth_failure_still_running :
    (drive ctx_started (c1_events.take 4)).current_step = VT_STEP_CONFIG ∧
    (drive ctx_started (c1_events.take 4)).retry_count = 0 ∧
    (drive ctx_started (c1_events.take 7)).current_step = VT_STEP_CONFIG ∧
    (drive ctx_started (c1_events.take 7)).retry_count = 0 ∧
    (drive ctx_started (c1_events.take 10)).current_step = VT_STEP_CONFIG ∧
    (drive ctx_started (c1_events.take 10)).retry_count = 0 ∧
    (drive ctx_started c1_events).enabled = true ∧
    (drive ctx_started c1_events).result = VT_RUNNING ∧
    (drive ctx_started c1_events).fail_reason = VT_FAIL_NONE ∧
    (drive ctx_started c1_events).current_step = VT_STEP_CONFIG := by
  decide

/-- Claim C2 (refuted on the code): with the open command sent and no
acknowledgement ever delivered, the first 5000 ms step timeout re-enters
SendOpen (retry_count stays 0, so the retry_count >= retry_max exit is
unreachable); the session keeps timing out and re-entering until the 60 s
whole-test timeout terminates it with Timeout / TotalTimeout instead of
Fail / OpenCmdTimeout. -/
theorem open_cmd_timeout_never_fires :
    (drive ctx_started (c2_reach ++ [tk 5000 0 0])).current_step =
      VT_STEP_SEND_OPEN ∧
    (drive ctx_started (c2_reach ++ [tk 5000 0 0])).enabled = true ∧
    (drive ctx_started (c2_reach ++ [tk 5000 0 0])).retry_count = 0 ∧
    (drive ctx_started c2_events).result = VT_TIMEOUT ∧
    (drive ctx_started c2_events).fail_reason = VT_FAIL_TOTAL_TIMEOUT ∧
    (drive ctx_started c2_events).fail_reason ≠ VT_FAIL_OPEN_CMD_TIMEOUT ∧
    (drive ctx_started c2_events).result ≠ VT_FAIL := by
  decide

/-- Claim C4 (refuted on the code): with initial voltages pinned at
(3000 mV, 3000 mV) and the config acknowledgement re-delivered on every
retry, the session is still running after three full retry cycles, and it
terminates only via the whole-test timeout with Timeout / TotalTimeout —
never Fail / InitialVoltageB. -/
theorem scenario_b_ends_in_total_timeout :
    (drive ctx_started c4_three_retries).enabled = true ∧
    (drive ctx_started c4_three_retries).result = VT_RUNNING ∧
    (drive ctx_started c4_three_retries).fail_reason = VT_FAIL_NONE ∧
    (drive ctx_started c4_events).result = VT_TIMEOUT ∧
    (drive ctx_started c4_events).fail_reason = VT_FAIL_TOTAL_TIMEOUT ∧
    (drive ctx_started c4_events).fail_reason ≠ VT_FAIL_INITIAL_VOLTAGE_B ∧
    (drive ctx_started c4_events).result ≠ VT_FAIL := by
  decide

/-- Claim C5 (counterexample): after a happy-path run parks the session at
Done with stored result Success, the first subsequent tick returns the
stored result and disables the session, but the tick after that returns
Idle — not the stored terminal result. -/
theorem done_second_tick_returns_idle :
    c5_done_ctx.current_step = VT_STEP_DONE ∧
    c5_done_ctx.result = VT_SUCCESS ∧
    (ValveCtrl_Core_Loop c5_done_ctx ⟨500, true, 0, 0⟩).2 = VT_SUCCESS ∧
    (ValveCtrl_Core_Loop c5_done_ctx ⟨500, true, 0, 0⟩).1.result =
      VT_SUCCESS ∧
    (ValveCtrl_Core_Loop
        (ValveCtrl_Core_Loop c5_done_ctx ⟨500, true, 0, 0⟩).1
        ⟨500, true, 0, 0⟩).2 = VT_IDLE ∧
    VT_IDLE ≠ VT_SUCCESS := by
  decide

/-- Claim C6 (counterexample): a single tick advances current_step from
Config (enum value 1) to CheckInitial (enum value 3), a forward jump of two
steps; and a CheckInitial retry moves backward to enum value 1, which is not
among the claimed retry targets 0, 5, 9 (in either the C enum numbering or
the 13-step spec numbering, where Config is also step 1). -/
theorem step_transition_counterexample :
    (drive ctx_started c6_pre).current_step.toNat = 1 ∧
    (drive ctx_started c6_mid).current_step.toNat = 3 ∧
    ¬ (3 ≤ 1 + 1) ∧
    (drive ctx_started c6_post).current_step.toNat = 1 ∧
    (drive ctx_started c6_post).current_step.toNat <
      (drive ctx_started c6_mid).current_step.toNat ∧
    (1 : Nat) ∉ [0, 5, 9] := by
  decide

/-- Claim C10: ValveCtrl_Core_OnResponse overwrites response_code with the
given code and sets response_received to 1 for every context — enabled or
not, terminal or not, and whatever the previous mailbox flag (0, 1 or 2)
was — and it modifies no other field of the session state. -/
theorem on_response_last_writer_wins_frame (c : ValveCtrl_Context_t)
    (code : Nat) :
    (ValveCtrl_Core_OnResponse c code).response_received = 1 ∧
    (ValveCtrl_Core_OnResponse c code).response_code = code ∧
    (ValveCtrl_Core_OnResponse c code).current_step = c.current_step ∧
    (ValveCtrl_Core_OnResponse c code).result = c.result ∧
    (ValveCtrl_Core_OnResponse c code).enabled = c.enabled ∧
    (ValveCtrl_Core_OnResponse c code).total_time_ms = c.total_time_ms ∧
    (ValveCtrl_Core_OnResponse c code).total_timeout_ms =
      c.total_timeout_ms ∧
    (ValveCtrl_Core_OnResponse c code).step_time_ms = c.step_time_ms ∧
    (ValveCtrl_Core_OnResponse c code).step_timeout_ms = c.step_timeout_ms ∧
    (ValveCtrl_Core_OnResponse c code).retry_count = c.retry_count ∧
    (ValveCtrl_Core_OnResponse c code).retry_max = c.retry_max ∧
    (ValveCtrl_Core_OnResponse c code).voltage_a = c.voltage_a ∧
    (ValveCtrl_Core_OnResponse c code).voltage_b = c.voltage_b ∧
    (ValveCtrl_Core_OnResponse c code).pos_open = c.pos_open ∧
    (ValveCtrl_Core_OnResponse c code).pos_close = c.pos_close ∧
    (ValveCtrl_Core_OnResponse c code).initial_voltage_a =
      c.initial_voltage_a ∧
    (ValveCtrl_Core_OnResponse c code).initial_voltage_b =
      c.initial_voltage_b ∧
    (ValveCtrl_Core_OnResponse c code).initial_pos_open =
      c.initial_pos_open ∧
    (ValveCtrl_Core_OnResponse c code).initial_pos_close =
      c.initial_pos_close ∧
    (ValveCtrl_Core_OnResponse c code).config_param1 = c.config_param1 ∧
    (ValveCtrl_Core_OnResponse c code).config_param2 = c.config_param2 ∧
    (ValveCtrl_Core_OnResponse c code).fail_reason = c.fail_reason ∧
    (ValveCtrl_Core_OnResponse c code).fail_step = c.fail_step ∧
    (ValveCtrl_Core_OnResponse c code).meter_type = c.meter_type ∧
    (ValveCtrl_Core_OnResponse c code).expected_config_code =
      c.expected_config_code := by
  repeat' constructor

theorem step_wait_response_timeout (c : ValveCtrl_Context_t) (e : Nat)
    (hresp : c.response_received ≠ 1)
    (hst : c.step_time_ms ≥ c.step_timeout_ms) :
    step_wait_response c e = (VT_STEP_FAIL, c) := by
  unfold step_wait_response
  rw [if_pos hresp, if_pos hst]

theorem swrr_timeout (c : ValveCtrl_Context_t) (e : Nat) (hr : Bool)
    (s f : Nat) (hresp : c.response_received ≠ 1)
    (hst : c.step_time_ms ≥ c.step_timeout_ms) :
    step_wait_response_with_retry c e hr s f = (VT_STEP_FAIL, c) := by
  unfold step_wait_response_with_retry
  rw [step_wait_response_timeout c e hresp hst]
  simp

theorem step_transition_ok_refl (s : VT_TestStep) :
    step_transition_ok s s = true := by
  cases s <;> rfl

/-- Claim C3 (counterexample): driving the Config step to its 10 s step
timeout with no response ever delivered — zero retries attempted
(retry_count stayed 0, mailbox empty) — terminates the session with
fail_reason ConfigRetryExhausted, not the claimed ConfigTimeout. -/
theorem config_timeout_reason_counterexample :
    c3_ctx.current_step = VT_STEP_CONFIG ∧
    c3_ctx.retry_count = 0 ∧
    c3_ctx.response_received = 0 ∧
    (drive ctx_started c3_events).result = VT_FAIL ∧
    (drive ctx_started c3_events).fail_reason = VT_FAIL_CONFIG_RETRY ∧
    (drive ctx_started c3_events).fail_reason ≠ VT_FAIL_CONFIG_TIMEOUT := by
  decide

/-- Claim C3 (amended): when the Config-step wait reaches its step timeout
with no response pending and zero retries attempted, the session terminates
with result Fail and fail_reason ConfigRetryExhausted (VT_FAIL_CONFIG_RETRY);
VT_FAIL_CONFIG_TIMEOUT — a distinct reason — is not produced. -/
theorem config_step_timeout_yields_retry_reason
    (c : ValveCtrl_Context_t) (inp : LoopInput)
    (hen : c.enabled = true)
    (hstep : c.current_step = VT_STEP_CONFIG)
    (hresp : c.response_received ≠ 1)
    (hrc : c.retry_count = 0)
    (hdelay : inp.delay_done = true)
    (htot : (c.total_time_ms + inp.tick_ms) % UINT32_MOD ≤
      c.total_timeout_ms)
    (hst : (c.step_time_ms + inp.tick_ms) % UINT32_MOD ≥
      c.step_timeout_ms) :
    (ValveCtrl_Core_Loop c inp).2 = VT_FAIL ∧
    (ValveCtrl_Core_Loop c inp).1.result = VT_FAIL ∧
    (ValveCtrl_Core_Loop c inp).1.fail_reason = VT_FAIL_CONFIG_RETRY ∧
    (ValveCtrl_Core_Loop c inp).1.fail_reason ≠ VT_FAIL_CONFIG_TIMEOUT ∧
    (ValveCtrl_Core_Loop c inp).1.enabled = false := by
  unfold ValveCtrl_Core_Loop
  rw [if_neg (by simp [hen])]
  rw [if_neg (by simpa using Nat.not_lt.mpr htot)]
  rw [if_neg (by simp [hdelay])]
  simp only [hstep]
  rw [swrr_timeout _ _ _ _ _ (by simpa using hresp) (by simpa using hst)]
  simp

/-- Claim C3 witness: the amended theorem applied to the concrete
zero-retry Config timeout. -/
theorem config_step_timeout_yields_retry_reason_witness :
    (ValveCtrl_Core_Loop c3_ctx ⟨10000, true, 0, 0⟩).2 = VT_FAIL ∧
    (ValveCtrl_Core_Loop c3_ctx ⟨10000, true, 0, 0⟩).1.fail_reason =
      VT_FAIL_CONFIG_RETRY := by
  have h := config_step_timeout_yields_retry_reason c3_ctx
    ⟨10000, true, 0, 0⟩ (by decide) (by decide) (by decide) (by decide)
    (by decide) (by decide) (by decide)
  exact ⟨h.1, h.2.2.1⟩

/-- Claim C5 (amended): once Done is reached with the session still
enabled, the next tick (with the delay expired and the whole-test timeout
not tripped) returns the stored result and disables the session; every
tick after that returns Idle with the state frozen, because the enabled
gate short-circuits, until Stop or Start re-initialises the session. -/
theorem done_tick_disables_and_reports
    (c : ValveCtrl_Context_t) (inp : LoopInput)
    (hen : c.enabled = true)
    (hstep : c.current_step = VT_STEP_DONE)
    (hdelay : inp.delay_done = true)
    (htot : (c.total_time_ms + inp.tick_ms) % UINT32_MOD ≤
      c.total_timeout_ms) :
    (ValveCtrl_Core_Loop c inp).2 = c.result ∧
    (ValveCtrl_Core_Loop c inp).1.result = c.result ∧
    (ValveCtrl_Core_Loop c inp).1.enabled = false ∧
    (∀ inp2 : LoopInput,
      ValveCtrl_Core_Loop (ValveCtrl_Core_Loop c inp).1 inp2 =
        ((ValveCtrl_Core_Loop c inp).1, VT_IDLE)) := by
  have hmain :
      (ValveCtrl_Core_Loop c inp).2 = c.result ∧
      (ValveCtrl_Core_Loop c inp).1.result = c.result ∧
      (ValveCtrl_Core_Loop c inp).1.enabled = false := by
    unfold ValveCtrl_Core_Loop
    rw [if_neg (by simp [hen])]
    rw [if_neg (by simpa using Nat.not_lt.mpr htot)]
    rw [if_neg (by simp [hdelay])]
    simp [hstep]
  exact ⟨hmain.1, hmain.2.1, hmain.2.2,
    fun inp2 => loop_disabled _ inp2 hmain.2.2⟩

/-- Claim C5 witness: the amended theorem applied to the happy-path session
parked at Done. -/
theorem done_tick_disables_and_reports_witness :
    (ValveCtrl_Core_Loop c5_done_ctx ⟨500, true, 0, 0⟩).2 = VT_SUCCESS ∧
    (ValveCtrl_Core_Loop c5_done_ctx ⟨500, true, 0, 0⟩).1.enabled = false ∧
    ValveCtrl_Core_Loop
        (ValveCtrl_Core_Loop c5_done_ctx ⟨500, true, 0, 0⟩).1
        ⟨500, true, 0, 0⟩ =
      ((ValveCtrl_Core_Loop c5_done_ctx ⟨500, true, 0, 0⟩).1, VT_IDLE) := by
  have h := done_tick_disables_and_reports c5_done_ctx ⟨500, true, 0, 0⟩
    (by decide) (by decide) (by decide) (by decide)
  exact ⟨h.1.trans (by decide), h.2.2.1, h.2.2.2 ⟨500, true, 0, 0⟩⟩

/-- Claim C6 (amended): a single loop tick never moves current_step
backward except along the four retry transitions CheckInitial -> Config,
DetectOpening -> SendOpen, CheckOpenState -> OutputOpenSignal and
CheckCloseState -> OutputCloseSignal (enum targets 1, 4, 6, 11), and never
advances it forward by more than two enum values (the advances of two skip
the unused query placeholder steps 2, 7 and 12). -/
theorem loop_step_transition_bounds (c : ValveCtrl_Context_t)
    (inp : LoopInput) :
    step_transition_ok c.current_step
      ((ValveCtrl_Core_Loop c inp).1.current_step) = true := by
  obtain ⟨cs, res, en, tt, tto, st, sto, rc, rm, va, vb, po, pc, iva, ivb,
    ipo, ipc, rr, rcode, p1, p2, fr, fs, mt, ecc⟩ := c
  cases en
  · rw [loop_disabled _ inp rfl]
    exact step_transition_ok_refl _
  · cases cs <;>
      (simp only [ValveCtrl_Core_Loop]; rw [if_neg (by simp)]) <;>
      (repeat' split) <;>
      (first
        | rfl
        | exact step_transition_ok_refl _
        | (simp only [swrr_current_step]; rfl))

/-- Claim C7: in DetectClosing with the 15000 ms step timeout, if the
voltages have not reached the closing signature (A < 100 mV and
B > 2800 mV) when the step timer reaches the timeout, the session
terminates with overall result Timeout (not Fail), fail_reason
CloseDetectTimeout, the session disabled, and the retry counter untouched —
no retry is attempted at this step. -/
theorem detect_closing_timeout_is_terminal_timeout
    (c : ValveCtrl_Context_t) (inp : LoopInput)
    (hen : c.enabled = true)
    (hstep : c.current_step = VT_STEP_DETECT_CLOSING)
    (hto : c.step_timeout_ms = VALVE_CLOSE_DETECT_TIMEOUT_MS)
    (hdelay : inp.delay_done = true)
    (htot : (c.total_time_ms + inp.tick_ms) % UINT32_MOD ≤
      c.total_timeout_ms)
    (hnosig : ¬ (inp.va < VALVE_VOLTAGE_LOW_THRESHOLD ∧
      inp.vb > VALVE_VOLTAGE_HIGH_THRESHOLD))
    (hst : (c.step_time_ms + inp.tick_ms) % UINT32_MOD ≥
      VALVE_CLOSE_DETECT_TIMEOUT_MS) :
    (ValveCtrl_Core_Loop c inp).2 = VT_TIMEOUT ∧
    (ValveCtrl_Core_Loop c inp).1.result = VT_TIMEOUT ∧
    (ValveCtrl_Core_Loop c inp).1.fail_reason =
      VT_FAIL_CLOSE_DETECT_TIMEOUT ∧
    (ValveCtrl_Core_Loop c inp).1.enabled = false ∧
    (ValveCtrl_Core_Loop c inp).1.retry_count = c.retry_count := by
  unfold ValveCtrl_Core_Loop
  rw [if_neg (by simp [hen])]
  rw [if_neg (by simpa using Nat.not_lt.mpr htot)]
  rw [if_neg (by simp [hdelay])]
  simp only [hstep]
  rw [if_neg hnosig]
  rw [if_pos (by simpa [hto] using hst)]
  exact ⟨rfl, rfl, rfl, rfl, rfl⟩

/-- Claim C7 witness: the theorem applied to a session that entered
DetectClosing from a happy-path prefix and then saw 15 s with the voltages
stuck at (500 mV, 500 mV). -/
theorem detect_closing_timeout_is_terminal_timeout_witness :
    (ValveCtrl_Core_Loop c7_ctx c7_inp).2 = VT_TIMEOUT ∧
    (ValveCtrl_Core_Loop c7_ctx c7_inp).1.fail_reason =
      VT_FAIL_CLOSE_DETECT_TIMEOUT ∧
    (ValveCtrl_Core_Loop c7_ctx c7_inp).1.enabled = false := by
  have h := detect_closing_timeout_is_terminal_timeout c7_ctx c7_inp
    (by decide) (by decide) (by decide) (by decide) (by decide) (by decide)
    (by decide)
  exact ⟨h.1, h.2.2.1, h.2.2.2.1⟩

set_option maxHeartbeats 4000000 in
theorem loop_total_time (c : ValveCtrl_Context_t) (inp : LoopInput)
    (hen : c.enabled = true) :
    (ValveCtrl_Core_Loop c inp).1.total_time_ms =
      (c.total_time_ms + inp.tick_ms) % UINT32_MOD := by
  obtain ⟨cs, res, en, tt, tto, st, sto, rc, rm, va, vb, po, pc, iva, ivb,
    ipo, ipc, rr, rcode, p1, p2, fr, fs, mt, ecc⟩ := c
  simp only [ValveCtrl_Context_t.enabled] at hen
  subst hen
  cases cs <;>
    (simp only [ValveCtrl_Core_Loop]; rw [if_neg (by simp)]) <;>
    (repeat' split) <;>
    (first | rfl | simp [enter_step, swrr_total_time_ms])

/-- Claim C8: for every enabled session, a ValveCtrl_Core_Loop call adds
tick_ms to the whole-test timer (modulo uint32) in every case, and while a
requested soft delay is still pending it also adds tick_ms to the step
timer — the delay gate never suspends timeout accounting. -/
theorem loop_accumulates_timers (c : ValveCtrl_Context_t) (inp : LoopInput)
    (hen : c.enabled = true) :
    (ValveCtrl_Core_Loop c inp).1.total_time_ms =
      (c.total_time_ms + inp.tick_ms) % UINT32_MOD ∧
    (inp.delay_done = false →
      (ValveCtrl_Core_Loop c inp).1.step_time_ms =
        (c.step_time_ms + inp.tick_ms) % UINT32_MOD) := by
  refine ⟨loop_total_time c inp hen, fun hd => ?_⟩
  simp only [ValveCtrl_Core_Loop]
  rw [if_neg (by simp [hen])]
  split
  · rfl
  · simp [hd]

/-- Claim C8 witness: the theorem applied to a freshly started session with
a 10 ms tick while the delay is pending. -/
theorem loop_accumulates_timers_witness :
    (ValveCtrl_Core_Loop ctx_started ⟨10, false, 0, 0⟩).1.total_time_ms =
      10 ∧
    (ValveCtrl_Core_Loop ctx_started ⟨10, false, 0, 0⟩).1.step_time_ms =
      10 := by
  have h := loop_accumulates_timers ctx_started ⟨10, false, 0, 0⟩
    (by decide)
  exact ⟨h.1.trans (by decide), (h.2 rfl).trans (by decide)⟩

theorem ResultReasonInv_loop (c : ValveCtrl_Context_t) (inp : LoopInput)
    (h : ResultReasonInv c) :
    ResultReasonInv (ValveCtrl_Core_Loop c inp).1 := by
  by_cases hen : c.enabled = true
  · have hfr : c.fail_reason = VT_FAIL_NONE := by
      by_contra hne
      rw [h.1 hne] at hen
      exact absurd hen (by simp)
    have hresf : c.result ≠ VT_FAIL := fun hx => (h.2.2 (Or.inl hx)) hfr
    have hrest : c.result ≠ VT_TIMEOUT := fun hx => (h.2.2 (Or.inr hx)) hfr
    obtain ⟨cs, res, en, tt, tto, st, sto, rc, rm, va, vb, po, pc, iva, ivb,
      ipo, ipc, rr, rcode, p1, p2, fr, fs, mt, ecc⟩ := c
    simp only [ValveCtrl_Context_t.enabled] at hen
    simp only [ValveCtrl_Context_t.fail_reason] at hfr
    simp only [ValveCtrl_Context_t.result] at hresf hrest
    subst hen
    subst hfr
    cases cs <;>
      (simp only [ValveCtrl_Core_Loop]; rw [if_neg (by simp)]) <;>
      (repeat' split) <;>
      simp_all [ResultReasonInv, enter_step, swrr_result, swrr_fail_reason,
        swrr_enabled]
  · rw [loop_disabled c inp (by simpa using hen)]
    exact h

theorem ResultReasonInv_reachable {c : ValveCtrl_Context_t}
    (h : Reachable c) : ResultReasonInv c := by
  induction h with
  | init => exact ⟨fun hne => absurd rfl hne, fun _ => rfl,
      fun hc => by rcases hc with hc | hc <;>
        simp [ValveCtrl_Core_Init] at hc⟩
  | start mt ecc _ _ => exact ⟨fun hne => absurd rfl hne, fun _ => rfl,
      fun hc => by rcases hc with hc | hc <;>
        simp [ValveCtrl_Core_Start] at hc⟩
  | stop _ _ => exact ⟨fun _ => rfl,
      fun hs => by simp [ValveCtrl_Core_Stop] at hs,
      fun hc => by rcases hc with hc | hc <;>
        simp [ValveCtrl_Core_Stop] at hc⟩
  | loop inp _ ih => exact ResultReasonInv_loop _ inp ih
  | onResponse code _ ih => exact ih

/-- Claim C9: for every session reachable through the public API whose
result is terminal (Success, Timeout or Fail), exactly one of those three
results holds, and fail_reason equals NoFailure (VT_FAIL_NONE) if and only
if the result is Success. -/
theorem terminal_result_reason_coherence (c : ValveCtrl_Context_t)
    (hr : Reachable c)
    (ht : c.result = VT_SUCCESS ∨ c.result = VT_TIMEOUT ∨
      c.result = VT_FAIL) :
    ((c.result = VT_SUCCESS ∧ c.result ≠ VT_TIMEOUT ∧
        c.result ≠ VT_FAIL) ∨
     (c.result = VT_TIMEOUT ∧ c.result ≠ VT_SUCCESS ∧
        c.result ≠ VT_FAIL) ∨
     (c.result = VT_FAIL ∧ c.result ≠ VT_SUCCESS ∧
        c.result ≠ VT_TIMEOUT)) ∧
    (c.fail_reason = VT_FAIL_NONE ↔ c.result = VT_SUCCESS) := by
  obtain ⟨h1, h2, h3⟩ := ResultReasonInv_reachable hr
  refine ⟨?_, ?_, h2⟩
  · rcases ht with hx | hx | hx
    · exact Or.inl ⟨hx, by simp [hx], by simp [hx]⟩
    · exact Or.inr (Or.inl ⟨hx, by simp [hx], by simp [hx]⟩)
    · exact Or.inr (Or.inr ⟨hx, by simp [hx], by simp [hx]⟩)
  · intro hn
    rcases ht with hx | hx | hx
    · exact hx
    · exact absurd hn (h3 (Or.inr hx))
    · exact absurd hn (h3 (Or.inl hx))

/-- Claim C9 witness: the theorem applied to the reachable terminal session
obtained by letting the whole-test timeout fire right after Start. -/
theorem terminal_result_reason_coherence_witness :
    c9_ctx.result = VT_TIMEOUT ∧
    (c9_ctx.fail_reason = VT_FAIL_NONE ↔ c9_ctx.result = VT_SUCCESS) := by
  have hr : Reachable c9_ctx :=
    Reachable.loop ⟨60001, true, 0, 0⟩
      (Reachable.start VALVE_METER_MECHANICAL 0x2604 Reachable.init)
  have h := terminal_result_reason_coherence c9_ctx hr
    (Or.inr (Or.inl (by decide)))
  exact ⟨by decide, h.2⟩
